import Mathlib

/-!
Verification of the CodeBro chat backend (src/main.py, src/schemas.py).

The repository is a FastAPI application persisting conversations and
messages in a document store and answering chat messages with a pure
rule-based responder (`codebro_brain`).  The responder and the route
handlers are embedded below directly from `src/main.py`.  The document
store adapter (`database.py`, imported by `main.py` but not part of the
sources) and the pymongo/bson collection API are modelled from the
specification's external-collaborator contract: `create(collection,
fields) -> id`, `find(collection, filter, sort?, limit?)`,
`count(collection, filter)`, records carrying an opaque unique
identifier and a store-assigned creation timestamp.
-/

/-! ### Python string primitives used by `main.py` -/

/-- Whitespace test matching Python `str.strip()` / `str.isspace()`:
ASCII whitespace, the C1 separator controls, and the Unicode space
separators. -/
def isPySpace (c : Char) : Bool :=
  c == ' ' || c == '\t' || c == '\n' || c == '\r' || c == '\x0b' || c == '\x0c' ||
  (0x1c ≤ c.val && c.val ≤ 0x1f) || c.val == 0x85 || c.val == 0xa0 ||
  c.val == 0x1680 || (0x2000 ≤ c.val && c.val ≤ 0x200a) ||
  c.val == 0x2028 || c.val == 0x2029 || c.val == 0x202f ||
  c.val == 0x205f || c.val == 0x3000

/-- Python `s.strip()`: drop leading and trailing whitespace. -/
def pyStrip (s : String) : String :=
  ⟨((s.data.dropWhile isPySpace).reverse.dropWhile isPySpace).reverse⟩

/-- Python `s.lower()`, restricted to ASCII case mapping; every keyword
tested by `codebro_brain` is ASCII. -/
def pyLower (s : String) : String :=
  ⟨s.data.map Char.toLower⟩

/-- Does `hay` start with `needle`? -/
def startsWithL : List Char → List Char → Bool
  | [], _ => true
  | _ :: _, [] => false
  | a :: as, b :: bs => a == b && startsWithL as bs

/-- Substring search on character lists. -/
def containsSub (needle : List Char) : List Char → Bool
  | [] => needle.isEmpty
  | b :: bs => startsWithL needle (b :: bs) || containsSub needle bs

/-- Python `needle in hay` on strings (substring containment). -/
def pyIn (needle hay : String) : Bool :=
  containsSub needle.data hay.data

/-! ### The responder (`codebro_brain`, src/main.py lines 49-95) -/

def greetingReply : String :=
  "Hey! I'm CodeBro 🤖💙 — your coding sidekick. Ask me about React, FastAPI, MongoDB, Tailwind, or deployment!"

def deployReply : String :=
  "Deployment tips:\n- Frontend: build with Vite (npm run build) and host static files (Vercel/Netlify).\n- Backend: use FastAPI + Uvicorn on a server (Railway/Render/Fly.io).\n- Set DATABASE_URL and DATABASE_NAME env vars.\n- Enable CORS and point frontend to your backend URL via VITE_BACKEND_URL."

def reactReply : String :=
  "In React with Vite: manage state with hooks (useState/useEffect), fetch from your API using fetch/axios, and use Tailwind for rapid UI.\nNeed a quick example?\n\nuseEffect(() => \x7b fetch('/api').then(r=>r.json()).then(setData); \x7d, []);"

def fastapiReply : String :=
  "FastAPI quickstart:\n\nfrom fastapi import FastAPI\napp = FastAPI()\n@app.get('/')\ndef home(): return \x7b'ok': True\x7d\n\nRun with: uvicorn main:app --reload"

def mongoReply : String :=
  "MongoDB patterns:\n- Use a single client and reuse the db handle.\n- Store timestamps (created_at/updated_at).\n- Index frequent query fields.\n- Keep references by storing ObjectId as string if you prefer simple JSON APIs."

def tailwindReply : String :=
  "Tailwind tip: compose utilities and extract components when repeated. Use container, max-w-*, and prose for long content."

def debugReply : String :=
  "Debug flow I recommend:\n1) Reproduce reliably.\n2) Read the exact error and the stack.\n3) Minimize to a tiny snippet.\n4) Add logs/prints.\n5) Fix, then add a test to avoid regressions."

/-- Fixed part of the default reply printed before the echoed input. -/
def defaultReplyPre : String :=
  "I hear you! Here's a quick, actionable reply:\n\n- Summary: you said → \""

/-- Fixed part of the default reply printed after the echoed input. -/
def defaultReplyPost : String :=
  "\"\n- Next step: break it into smaller tasks and tackle them one by one.\n- Want code? Paste a snippet and I'll review it."

/-- The default echo reply of `codebro_brain` (lines 90-95). -/
def defaultReply (user_message : String) : String :=
  defaultReplyPre ++ pyStrip user_message ++ defaultReplyPost

/-- The rule-based responder, embedded from `codebro_brain` in
src/main.py.  Each branch mirrors one `if` of the source, in order. -/
def codebro_brain (user_message : String) : String :=
  let m := pyLower (pyStrip user_message)
  if ["hello", "hi", "hey"].any (fun x => pyIn x m) then greetingReply
  else if pyIn "deploy" m || pyIn "deployment" m then deployReply
  else if pyIn "react" m then reactReply
  else if pyIn "fastapi" m || pyIn "python" m then fastapiReply
  else if pyIn "mongodb" m || pyIn "mongo" m || pyIn "database" m then mongoReply
  else if pyIn "tailwind" m then tailwindReply
  else if pyIn "code" m || pyIn "bug" m || pyIn "error" m || pyIn "fix" m then debugReply
  else defaultReply user_message

/-- The keywords of all rules of `codebro_brain`, in rule order. -/
def brainKeywords : List String :=
  ["hello", "hi", "hey", "deploy", "deployment", "react", "fastapi", "python",
   "mongodb", "mongo", "database", "tailwind", "code", "bug", "error", "fix"]

/-- True when no keyword rule of `codebro_brain` matches the message. -/
def noRuleMatches (user_message : String) : Bool :=
  brainKeywords.all (fun k => !(pyIn k (pyLower (pyStrip user_message))))

/-! ### Data model and document store

Records of the two collections, `conversation` and `message`
(src/schemas.py).  Identifiers and timestamps are store-assigned; see
the store model below. -/

/-- A record of the `conversation` collection: opaque store-generated
identifier, title, store-assigned creation timestamp. -/
structure Conversation where
  id : String
  title : String
  created_at : Nat
deriving DecidableEq, Repr

/-- A record of the `message` collection (src/schemas.py):
`conversation_id` is a plain string reference, not enforced by the
store. -/
structure Message where
  id : String
  conversation_id : String
  role : String
  content : String
  created_at : Nat
deriving DecidableEq, Repr

/-- The document store state: the two collections in insertion order,
plus counters from which the store derives fresh identifiers and
strictly increasing creation timestamps. -/
structure Store where
  conversations : List Conversation
  messages : List Message
  nextId : Nat
  nextTime : Nat
deriving DecidableEq, Repr

/-- The empty store. -/
def initStore : Store := ⟨[], [], 0, 0⟩

/-- Store-generated identifier: the 24-digit lowercase hexadecimal
rendering of the store's id counter, the canonical string form of a
BSON ObjectId. -/
def genId (n : Nat) : String :=
  let ds := Nat.toDigits 16 n
  ⟨List.replicate (24 - ds.length) '0' ++ ds⟩

/-- Modelled from the spec: the Document Store Adapter's
`create(collection, fields) -> id` for the `conversation` collection
(`database.py` is not among the sources).  The record receives an
opaque unique identifier and a store-assigned creation timestamp; the
new identifier is returned as a string. -/
def create_document_conversation (s : Store) (title : String) : Store × String :=
  let newId := genId s.nextId
  ({ conversations := s.conversations ++ [{ id := newId, title := title, created_at := s.nextTime }],
     messages := s.messages,
     nextId := s.nextId + 1,
     nextTime := s.nextTime + 1 }, newId)

/-- Modelled from the spec: the Document Store Adapter's
`create(collection, fields) -> id` for the `message` collection. -/
def create_document_message (s : Store) (conversation_id role content : String) : Store × String :=
  let newId := genId s.nextId
  ({ conversations := s.conversations,
     messages := s.messages ++ [{ id := newId, conversation_id := conversation_id,
                                  role := role, content := content, created_at := s.nextTime }],
     nextId := s.nextId + 1,
     nextTime := s.nextTime + 1 }, newId)

/-- Hexadecimal digit test, both cases, as accepted by
`bson.ObjectId`. -/
def isHexChar (c : Char) : Bool :=
  c.isDigit || ('a' ≤ c && c ≤ 'f') || ('A' ≤ c && c ≤ 'F')

/-- Modelled from the external `bson.ObjectId` constructor used at
src/main.py line 132: a string argument must be 24 hexadecimal
characters, otherwise `InvalidId` is raised; a parsed ObjectId compares
by its canonical lowercase form. -/
def objectIdOfString (s : String) : Option String :=
  if s.length == 24 && s.data.all isHexChar then some (pyLower s) else none

/-- Errors surfaced by the route handlers.  `invalidId` stands for the
uncaught `bson.errors.InvalidId` exception (an internal server error,
not an HTTP 404); `validationError` for pydantic request rejection. -/
inductive ApiError where
  | notFound
  | invalidId
  | validationError
deriving DecidableEq, Repr

/-! ### Route handlers (src/main.py lines 107-171) -/

/-- POST /api/conversations (lines 107-113): `title = req.title or
"New Chat"` — Python `or` replaces both `None` and the empty string. -/
def create_conversation (s : Store) (title : Option String) : Store × String :=
  create_document_conversation s
    (match title with
     | none => "New Chat"
     | some t => if t == "" then "New Chat" else t)

/-- Ordering used by GET /api/conversations: `sort("created_at", -1)`. -/
def convoLater (a b : Conversation) : Prop := b.created_at ≤ a.created_at

instance : DecidableRel convoLater := fun a b => Nat.decLe b.created_at a.created_at

instance : IsTotal Conversation convoLater := ⟨fun a b => Nat.le_total b.created_at a.created_at⟩

instance : IsTrans Conversation convoLater := ⟨fun _ _ _ h1 h2 => Nat.le_trans h2 h1⟩

/-- Ordering used by GET /api/conversations/\x7bid\x7d on messages:
`sort("created_at", 1)`. -/
def msgEarlier (a b : Message) : Prop := a.created_at ≤ b.created_at

instance : DecidableRel msgEarlier := fun a b => Nat.decLe a.created_at b.created_at

instance : IsTotal Message msgEarlier := ⟨fun a b => Nat.le_total a.created_at b.created_at⟩

instance : IsTrans Message msgEarlier := ⟨fun _ _ _ h1 h2 => Nat.le_trans h1 h2⟩

/-- GET /api/conversations (lines 115-126): sort by `created_at`
descending, limit 50, and annotate each item with
`count_documents(\x7b"conversation_id": d["_id"]\x7d)` — the serialized
(string) identifier, paired here as the `messages_count`. -/
def list_conversations (s : Store) : List (Conversation × Nat) :=
  ((List.insertionSort convoLater s.conversations).take 50).map
    (fun c => (c, (s.messages.filter (fun m => m.conversation_id == c.id)).length))

/-- GET /api/conversations/\x7bconversation_id\x7d (lines 128-136):
`find_one(\x7b"_id": ObjectId(conversation_id)\x7d)` — the ObjectId
constructor raises on malformed input — then the messages filtered by
the raw string id, sorted by `created_at` ascending. -/
def get_conversation (s : Store) (conversation_id : String) :
    Except ApiError (Conversation × List Message) :=
  match objectIdOfString conversation_id with
  | none => Except.error ApiError.invalidId
  | some oid =>
    match s.conversations.find? (fun c => c.id == oid) with
    | none => Except.error ApiError.notFound
    | some convo =>
      Except.ok (convo,
        List.insertionSort msgEarlier
          (s.messages.filter (fun m => m.conversation_id == conversation_id)))

/-- The body of POST /api/chat (src/main.py lines 39-41): a
`ChatRequest` with a `message` constrained by `min_length=1` and an
optional `conversation_id`. -/
structure ChatRequest where
  message : String
  conversation_id : Option String
deriving DecidableEq, Repr

/-- Pydantic validation of `ChatRequest.message`: `Field(...,
min_length=1)` accepts any string of length at least one. -/
def chatMessageValid (message : String) : Bool :=
  1 ≤ message.length

/-- Title derived for an auto-created conversation (line 146):
`req.message[:40] + ("…" if len(req.message) > 40 else "")`. -/
def chatTitle (message : String) : String :=
  message.take 40 ++ (if message.length > 40 then "…" else "")

/-- POST /api/chat (src/main.py lines 138-171).  `if not
conversation_id` is Python truthiness: both `None` and the empty string
trigger auto-creation.  Returns the new store, the resolved
conversation id, and the reply. -/
def chat (s : Store) (req : ChatRequest) : Store × String × String :=
  let resolved : String × Store :=
    match req.conversation_id with
    | none =>
      let r := create_document_conversation s (chatTitle req.message); (r.2, r.1)
    | some c =>
      if c == "" then
        let r := create_document_conversation s (chatTitle req.message); (r.2, r.1)
      else (c, s)
  let conversation_id := resolved.1
  let s1 := resolved.2
  let s2 := (create_document_message s1 conversation_id "user" req.message).1
  let reply := codebro_brain req.message
  let s3 := (create_document_message s2 conversation_id "assistant" reply).1
  (s3, conversation_id, reply)

/-- POST /api/chat including the pydantic validation layer that runs
before the handler body. -/
def chatEndpoint (s : Store) (req : ChatRequest) :
    Except ApiError (Store × String × String) :=
  if chatMessageValid req.message then Except.ok (chat s req)
  else Except.error ApiError.validationError

/-! ### Operation sequences, for the referential-integrity invariant -/

/-- One state-relevant API operation.  The two read-only routes are
included for completeness; they do not change the store. -/
inductive Op where
  | createConv (title : Option String)
  | chatOp (message : String) (conversation_id : Option String)
  | listConvs
  | getConv (conversation_id : String)
deriving DecidableEq, Repr

/-- Effect of one operation on the store. -/
def runOp (s : Store) : Op → Store
  | .createConv t => (create_conversation s t).1
  | .chatOp msg cid => (chat s ⟨msg, cid⟩).1
  | .listConvs => s
  | .getConv _ => s

/-- Effect of a sequence of operations. -/
def run (s : Store) (ops : List Op) : Store := ops.foldl runOp s

/-- Referential integrity: every persisted message's `conversation_id`
resolves to an existing conversation record. -/
def refIntegrity (s : Store) : Bool :=
  s.messages.all (fun m => s.conversations.any (fun c => c.id == m.conversation_id))

/-- An operation is safe for a store when any caller-supplied non-empty
`conversation_id` of a chat request resolves in that store. -/
def opSafe (s : Store) : Op → Bool
  | .chatOp _ (some c) => c == "" || s.conversations.any (fun cv => cv.id == c)
  | _ => true

/-- A sequence of operations each safe for the store it runs against. -/
inductive SafeOps : Store → List Op → Prop
  | nil (s : Store) : SafeOps s []
  | cons (s : Store) (op : Op) (ops : List Op) :
      opSafe s op = true → SafeOps (runOp s op) ops → SafeOps s (op :: ops)

/-! ### Helper lemmas -/

theorem startsWithL_self_append (n rest : List Char) : startsWithL n (n ++ rest) = true := by
  induction n with
  | nil => rfl
  | cons a as ih => simp [startsWithL, ih]

theorem containsSub_of_startsWithL (n hay : List Char) (h : startsWithL n hay = true) :
    containsSub n hay = true := by
  cases hay with
  | nil =>
    cases n with
    | nil => rfl
    | cons a as => simp [startsWithL] at h
  | cons b bs => simp [containsSub, h]

theorem containsSub_append (p n q : List Char) : containsSub n (p ++ n ++ q) = true := by
  induction p with
  | nil => exact containsSub_of_startsWithL _ _ (by simpa using startsWithL_self_append n q)
  | cons c cs ih =>
    rw [List.cons_append, List.cons_append]
    simp only [containsSub, Bool.or_eq_true]
    exact Or.inr ih

theorem data_defaultReply (x : String) :
    (defaultReply x).data = defaultReplyPre.data ++ (pyStrip x).data ++ defaultReplyPost.data := by
  simp [defaultReply, String.data_append]

theorem defaultReply_ne_empty (x : String) : defaultReply x ≠ "" := by
  intro h
  have hlen : (defaultReply x).data.length = 0 := by rw [h]; rfl
  rw [data_defaultReply, List.length_append, List.length_append] at hlen
  have hp : 0 < defaultReplyPre.data.length := by decide
  omega

theorem pyIn_strip_defaultReply (msg : String) :
    pyIn (pyStrip msg) (defaultReply msg) = true := by
  simp only [pyIn, data_defaultReply]
  exact containsSub_append _ _ _

theorem chat_empty_id_eq_none (s : Store) (msg : String) :
    chat s ⟨msg, some ""⟩ = chat s ⟨msg, none⟩ := rfl

theorem chat_none_eq (s : Store) (msg : String) :
    chat s ⟨msg, none⟩ =
      ({ conversations :=
           s.conversations ++ [⟨genId s.nextId, chatTitle msg, s.nextTime⟩],
         messages :=
           s.messages ++ [⟨genId (s.nextId + 1), genId s.nextId, "user", msg, s.nextTime + 1⟩]
             ++ [⟨genId (s.nextId + 1 + 1), genId s.nextId, "assistant",
                  codebro_brain msg, s.nextTime + 1 + 1⟩],
         nextId := s.nextId + 1 + 1 + 1,
         nextTime := s.nextTime + 1 + 1 + 1 },
       genId s.nextId, codebro_brain msg) := rfl

theorem chat_some_eq (s : Store) (msg c : String) (hc : (c == "") = false) :
    chat s ⟨msg, some c⟩ =
      ({ conversations := s.conversations,
         messages :=
           s.messages ++ [⟨genId s.nextId, c, "user", msg, s.nextTime⟩]
             ++ [⟨genId (s.nextId + 1), c, "assistant", codebro_brain msg, s.nextTime + 1⟩],
         nextId := s.nextId + 1 + 1,
         nextTime := s.nextTime + 1 + 1 },
       c, codebro_brain msg) := by
  simp [chat, create_document_conversation, create_document_message, hc]

/-! ### Claim theorems -/

/-- C5: for every non-empty input string, the Responder
(`codebro_brain`) returns a non-empty reply string. -/
theorem codebro_brain_nonempty (msg : String) (h : msg ≠ "") :
    codebro_brain msg ≠ "" := by
  simp only [codebro_brain]
  repeat' split
  all_goals first
    | decide
    | exact defaultReply_ne_empty msg

/-- Witness for C5 at the concrete input "hi". -/
theorem codebro_brain_nonempty_witness :
    ("hi" : String) ≠ "" ∧ codebro_brain "hi" ≠ "" :=
  ⟨by decide, codebro_brain_nonempty "hi" (by decide)⟩

/-- C6: "hello, can you help me deploy" contains keywords of both the
greeting rule and the deployment rule, and `codebro_brain` returns the
greeting reply because that rule is checked first. -/
theorem codebro_brain_rule_order :
    pyIn "hello" (pyLower (pyStrip "hello, can you help me deploy")) = true ∧
    pyIn "deploy" (pyLower (pyStrip "hello, can you help me deploy")) = true ∧
    codebro_brain "hello, can you help me deploy" = greetingReply ∧
    greetingReply ≠ deployReply := by
  refine ⟨by decide, by decide, by decide, by decide⟩

/-- C7: on any input matched by no keyword rule, `codebro_brain`
returns the default reply, which contains the trimmed original input
verbatim as a substring. -/
theorem codebro_brain_default (msg : String) (h : noRuleMatches msg = true) :
    codebro_brain msg = defaultReply msg ∧
    pyIn (pyStrip msg) (codebro_brain msg) = true := by
  have hk : ∀ k ∈ brainKeywords, pyIn k (pyLower (pyStrip msg)) = false := by
    intro k hkmem
    have := List.all_eq_true.mp h k hkmem
    simpa using this
  have h1 : codebro_brain msg = defaultReply msg := by
    simp only [codebro_brain]
    rw [if_neg, if_neg, if_neg, if_neg, if_neg, if_neg, if_neg]
    all_goals
      simp [hk "hello" (by decide), hk "hi" (by decide), hk "hey" (by decide),
            hk "deploy" (by decide), hk "deployment" (by decide),
            hk "react" (by decide), hk "fastapi" (by decide),
            hk "python" (by decide), hk "mongodb" (by decide),
            hk "mongo" (by decide), hk "database" (by decide),
            hk "tailwind" (by decide), hk "code" (by decide),
            hk "bug" (by decide), hk "error" (by decide), hk "fix" (by decide)]
  exact ⟨h1, h1 ▸ pyIn_strip_defaultReply msg⟩

/-- Witness for C7 at the concrete input "asdfqwerty". -/
theorem codebro_brain_default_witness :
    noRuleMatches "asdfqwerty" = true ∧
    (codebro_brain "asdfqwerty" = defaultReply "asdfqwerty" ∧
     pyIn (pyStrip "asdfqwerty") (codebro_brain "asdfqwerty") = true) :=
  ⟨by decide, codebro_brain_default "asdfqwerty" (by decide)⟩

/-- C9: the Responder is deterministic and pure — its embedding is a
function of the input string alone, so equal inputs give equal
replies. -/
theorem codebro_brain_deterministic (s t : String) (h : s = t) :
    codebro_brain s = codebro_brain t :=
  congrArg codebro_brain h

/-- Witness for C9 at the concrete input "hello". -/
theorem codebro_brain_deterministic_witness :
    codebro_brain "hello" = codebro_brain "hello" :=
  codebro_brain_deterministic "hello" "hello" rfl

/-- What C1 asserts of a chat turn without a conversation id: one new
conversation appended, exactly two messages appended under its id —
user first, then assistant with the Responder's reply — and the new id
returned together with the reply. -/
def ChatCreatesSpec (s : Store) (msg : String) : Prop :=
  ∃ convo : Conversation,
    (chat s ⟨msg, none⟩).1.conversations = s.conversations ++ [convo] ∧
    (chat s ⟨msg, none⟩).2.1 = convo.id ∧
    (chat s ⟨msg, none⟩).2.2 = codebro_brain msg ∧
    ∃ um am : Message,
      (chat s ⟨msg, none⟩).1.messages = s.messages ++ [um, am] ∧
      um.conversation_id = convo.id ∧ um.role = "user" ∧ um.content = msg ∧
      am.conversation_id = convo.id ∧ am.role = "assistant" ∧
      am.content = codebro_brain msg

/-- C1: a chat request with a non-empty message and no conversation_id
creates exactly one conversation and persists exactly two messages
(user, then assistant) under its id, returning that id and the
reply. -/
theorem chat_new_conversation (s : Store) (msg : String) (h : msg ≠ "") :
    ChatCreatesSpec s msg := by
  refine ⟨⟨genId s.nextId, chatTitle msg, s.nextTime⟩, ?_, rfl, rfl,
    ⟨genId (s.nextId + 1), genId s.nextId, "user", msg, s.nextTime + 1⟩,
    ⟨genId (s.nextId + 1 + 1), genId s.nextId, "assistant",
      codebro_brain msg, s.nextTime + 1 + 1⟩,
    ?_, rfl, rfl, rfl, rfl, rfl, rfl⟩ <;>
  simp [chat_none_eq]

/-- Witness for C1 at the empty store and the message "hi". -/
theorem chat_new_conversation_witness :
    ("hi" : String) ≠ "" ∧ ChatCreatesSpec initStore "hi" :=
  ⟨by decide, chat_new_conversation initStore "hi" (by decide)⟩

/-- What C10 asserts: a chat request whose conversation_id equals the
empty string behaves exactly as one with no conversation_id — a new
conversation is created, its title is the message truncated to 40
characters (with an ellipsis appended when longer), and both persisted
messages reference the new conversation's id, not the empty string. -/
def ChatEmptyIdSpec (s : Store) (msg : String) : Prop :=
  chat s ⟨msg, some ""⟩ = chat s ⟨msg, none⟩ ∧
  ∃ convo : Conversation,
    (chat s ⟨msg, some ""⟩).1.conversations = s.conversations ++ [convo] ∧
    (chat s ⟨msg, some ""⟩).2.1 = convo.id ∧
    convo.title = msg.take 40 ++ (if msg.length > 40 then "…" else "") ∧
    convo.id ≠ "" ∧
    ∃ um am : Message,
      (chat s ⟨msg, some ""⟩).1.messages = s.messages ++ [um, am] ∧
      um.conversation_id = convo.id ∧ am.conversation_id = convo.id

/-- C10: a present-but-empty conversation_id triggers auto-creation
exactly as an absent one (Python truthiness of the empty string). -/
theorem chat_empty_conversation_id (s : Store) (msg : String) :
    ChatEmptyIdSpec s msg := by
  refine ⟨chat_empty_id_eq_none s msg,
    ⟨genId s.nextId, chatTitle msg, s.nextTime⟩, ?_, rfl, rfl, ?_,
    ⟨genId (s.nextId + 1), genId s.nextId, "user", msg, s.nextTime + 1⟩,
    ⟨genId (s.nextId + 1 + 1), genId s.nextId, "assistant",
      codebro_brain msg, s.nextTime + 1 + 1⟩,
    ?_, rfl, rfl⟩
  · simp [chat_empty_id_eq_none, chat_none_eq]
  · intro habs
    have h2 : genId s.nextId = "" := habs
    have h3 := congrArg (fun t => t.data.length) h2
    have h4 : (List.replicate (24 - (Nat.toDigits 16 s.nextId).length) '0'
        ++ Nat.toDigits 16 s.nextId).length = 0 := h3
    rw [List.length_append, List.length_replicate] at h4
    omega
  · simp [chat_empty_id_eq_none, chat_none_eq]

/-- C2: the conversation listing holds at most 50 items, is sorted by
creation timestamp descending, and each item's messages_count equals
the number of persisted messages referencing that conversation's
identifier. -/
theorem list_conversations_spec (s : Store) :
    (list_conversations s).length ≤ 50 ∧
    List.Sorted convoLater ((list_conversations s).map Prod.fst) ∧
    ∀ p ∈ list_conversations s,
      p.2 = (s.messages.filter (fun m => m.conversation_id == p.1.id)).length := by
  refine ⟨?_, ?_, ?_⟩
  · simp [list_conversations]
  · have hs : List.Sorted convoLater (List.insertionSort convoLater s.conversations) :=
      List.sorted_insertionSort _ _
    have ht : List.Sorted convoLater
        ((List.insertionSort convoLater s.conversations).take 50) :=
      hs.sublist (List.take_sublist _ _)
    have hmap : (list_conversations s).map Prod.fst
        = (List.insertionSort convoLater s.conversations).take 50 := by
      simp [list_conversations, List.map_map, Function.comp_def]
    rw [hmap]
    exact ht
  · intro p hp
    simp only [list_conversations, List.mem_map] at hp
    obtain ⟨c, _, rfl⟩ := hp
    rfl

/-- C3 counterexample: the id "unknown-id" resolves to no conversation
of the empty store, yet get-conversation fails with the uncaught
ObjectId parse error — an internal server error — and not with
NotFound. -/
theorem get_conversation_malformed_counterexample :
    initStore.conversations.find? (fun c => c.id == "unknown-id") = none ∧
    get_conversation initStore "unknown-id" = Except.error ApiError.invalidId ∧
    (Except.error ApiError.invalidId :
        Except ApiError (Conversation × List Message)) ≠
      Except.error ApiError.notFound := by
  refine ⟨rfl, rfl, fun hcontra => ?_⟩
  have : ApiError.invalidId = ApiError.notFound := Except.error.inj hcontra
  simp at this

/-- What amended C3 asserts for ids that do parse as ObjectIds (in
canonical form): NotFound exactly when the id resolves to no stored
conversation, and otherwise the conversation together with its
messages sorted by creation timestamp ascending. -/
def GetConversationSpec (s : Store) (cid : String) : Prop :=
  (s.conversations.find? (fun c => c.id == cid) = none →
    get_conversation s cid = Except.error ApiError.notFound) ∧
  ∀ convo, s.conversations.find? (fun c => c.id == cid) = some convo →
    ∃ msgs, get_conversation s cid = Except.ok (convo, msgs) ∧
      List.Sorted msgEarlier msgs ∧
      List.Perm msgs (s.messages.filter (fun m => m.conversation_id == cid))

/-- C3 amended: restricted to ids accepted by the ObjectId constructor
(canonical 24-hex form), a non-resolving id yields NotFound and a
resolving id yields the conversation with its messages ascending by
creation timestamp. -/
theorem get_conversation_spec (s : Store) (cid : String)
    (hcanon : objectIdOfString cid = some cid) :
    GetConversationSpec s cid := by
  constructor
  · intro hnone
    simp [get_conversation, hcanon, hnone]
  · intro convo hsome
    refine ⟨List.insertionSort msgEarlier
        (s.messages.filter (fun m => m.conversation_id == cid)), ?_, ?_, ?_⟩
    · simp [get_conversation, hcanon, hsome]
    · exact List.sorted_insertionSort _ _
    · exact List.perm_insertionSort _ _

/-- A store holding one conversation and one of its messages, used to
witness the amended C3 on both branches. -/
def storeA : Store :=
  ⟨[⟨"aaaaaaaaaaaaaaaaaaaaaaaa", "T", 0⟩],
   [⟨"bbbbbbbbbbbbbbbbbbbbbbbb", "aaaaaaaaaaaaaaaaaaaaaaaa", "user", "hi", 1⟩], 2, 2⟩

/-- Witness for amended C3: the canonical id resolves in `storeA` and
not in the empty store. -/
theorem get_conversation_spec_witness :
    (initStore.conversations.find?
        (fun c => c.id == "aaaaaaaaaaaaaaaaaaaaaaaa") = none →
      get_conversation initStore "aaaaaaaaaaaaaaaaaaaaaaaa" =
        Except.error ApiError.notFound) ∧
    GetConversationSpec storeA "aaaaaaaaaaaaaaaaaaaaaaaa" :=
  ⟨(get_conversation_spec initStore "aaaaaaaaaaaaaaaaaaaaaaaa" (by decide)).1,
   get_conversation_spec storeA "aaaaaaaaaaaaaaaaaaaaaaaa" (by decide)⟩

/-- C4 counterexample: from the empty store — which satisfies
referential integrity — a single chat request carrying an unknown
caller-supplied conversation_id persists two messages whose
conversation reference resolves to no conversation. -/
theorem chat_unchecked_id_counterexample :
    refIntegrity initStore = true ∧
    refIntegrity
      (run initStore [Op.chatOp "hi" (some "bbbbbbbbbbbbbbbbbbbbbbbb")]) = false ∧
    (run initStore [Op.chatOp "hi" (some "bbbbbbbbbbbbbbbbbbbbbbbb")]).messages ≠ [] := by
  refine ⟨by decide, by decide, by decide⟩

/-- One safe operation preserves referential integrity. -/
theorem refIntegrity_step (s : Store) (op : Op)
    (hs : refIntegrity s = true) (hop : opSafe s op = true) :
    refIntegrity (runOp s op) = true := by
  simp only [refIntegrity, List.all_eq_true, List.any_eq_true] at hs
  cases op with
  | listConvs => simpa [runOp, refIntegrity, List.all_eq_true, List.any_eq_true] using hs
  | getConv cid => simpa [runOp, refIntegrity, List.all_eq_true, List.any_eq_true] using hs
  | createConv t =>
    simp only [runOp, create_conversation, create_document_conversation, refIntegrity,
      List.all_eq_true, List.any_eq_true]
    intro m hm
    obtain ⟨c, hc, he⟩ := hs m hm
    exact ⟨c, List.mem_append_left _ hc, he⟩
  | chatOp msg cid =>
    have hnone : ∀ m, m ∈ (chat s ⟨msg, none⟩).1.messages →
        ∃ c ∈ (chat s ⟨msg, none⟩).1.conversations, (c.id == m.conversation_id) = true := by
      simp only [chat_none_eq]
      intro m hm
      rw [List.append_assoc] at hm
      rcases List.mem_append.mp hm with hm | hm
      · obtain ⟨c, hc, he⟩ := hs m hm
        exact ⟨c, List.mem_append_left _ hc, he⟩
      · have hm2 : m = ⟨genId (s.nextId + 1), genId s.nextId, "user", msg, s.nextTime + 1⟩
            ∨ m = ⟨genId (s.nextId + 1 + 1), genId s.nextId, "assistant",
                    codebro_brain msg, s.nextTime + 1 + 1⟩ := by
          simpa using hm
        refine ⟨⟨genId s.nextId, chatTitle msg, s.nextTime⟩,
          List.mem_append_right _ (by simp), ?_⟩
        rcases hm2 with rfl | rfl <;> simp
    cases cid with
    | none =>
      simpa only [runOp, refIntegrity, List.all_eq_true, List.any_eq_true] using hnone
    | some c =>
      by_cases hce : (c == "") = true
      · have hc0 : c = "" := by simpa using hce
        subst hc0
        rw [runOp, chat_empty_id_eq_none]
        simpa only [refIntegrity, List.all_eq_true, List.any_eq_true] using hnone
      · have hcf : (c == "") = false := by simpa using hce
        have hsafe : ∃ cv ∈ s.conversations, (cv.id == c) = true := by
          simpa only [opSafe, hcf, Bool.false_or, List.any_eq_true] using hop
        obtain ⟨cv, hcv, hcve⟩ := hsafe
        simp only [runOp, chat_some_eq s msg c hcf, refIntegrity,
          List.all_eq_true, List.any_eq_true]
        intro m hm
        rw [List.append_assoc] at hm
        rcases List.mem_append.mp hm with hm | hm
        · exact hs m hm
        · have hm2 : m = ⟨genId s.nextId, c, "user", msg, s.nextTime⟩
              ∨ m = ⟨genId (s.nextId + 1), c, "assistant",
                      codebro_brain msg, s.nextTime + 1⟩ := by
            simpa using hm
          refine ⟨cv, hcv, ?_⟩
          rcases hm2 with rfl | rfl <;> exact hcve

/-- C4 amended: referential integrity is an application-level contract
that chat does not enforce; it is preserved along any operation
sequence in which every chat request's caller-supplied conversation_id
is absent, empty, or resolves to an existing conversation at the time
of the call. -/
theorem refIntegrity_run (s : Store) (ops : List Op) (hops : SafeOps s ops)
    (hs : refIntegrity s = true) :
    refIntegrity (run s ops) = true := by
  induction hops with
  | nil s => exact hs
  | cons s op ops hop _ ih => exact ih (refIntegrity_step s op hs hop)

/-- Witness for amended C4: an auto-creating chat turn followed by an
explicit conversation creation, run from the empty store. -/
theorem refIntegrity_run_witness :
    refIntegrity (run initStore [Op.chatOp "hi" none, Op.createConv none]) = true :=
  refIntegrity_run initStore [Op.chatOp "hi" none, Op.createConv none]
    (SafeOps.cons _ _ _ (by decide)
      (SafeOps.cons _ _ _ (by decide) (SafeOps.nil _)))
    (by decide)

/-- C8 counterexample: the single space is a whitespace-only message,
yet `min_length=1` validation accepts it and the chat handler invokes
the Responder on it. -/
theorem chat_whitespace_counterexample :
    " ".data.all isPySpace = true ∧
    chatMessageValid " " = true ∧
    chatEndpoint initStore ⟨" ", none⟩ = Except.ok (chat initStore ⟨" ", none⟩) ∧
    (chat initStore ⟨" ", none⟩).2.2 = codebro_brain " " :=
  ⟨by decide, by decide, rfl, rfl⟩

/-- C8 amended: the `min_length=1` constraint rejects exactly the empty
message; a whitespace-only but non-empty message passes validation,
reaches the handler, and the Responder is invoked on it. -/
theorem chat_whitespace_amended (s : Store) (msg : String)
    (hws : msg.data.all isPySpace = true) (hne : msg ≠ "") :
    chatMessageValid msg = true ∧
    chatEndpoint s ⟨msg, none⟩ = Except.ok (chat s ⟨msg, none⟩) ∧
    (chat s ⟨msg, none⟩).2.2 = codebro_brain msg := by
  have hd : msg.data ≠ [] := by
    intro hcontra
    apply hne
    cases msg
    simp_all
  have hv : chatMessageValid msg = true := by
    simp only [chatMessageValid, decide_eq_true_eq]
    cases msg with
    | mk l =>
      show 1 ≤ l.length
      have hl : l ≠ [] := by simpa using hd
      have := List.length_pos.mpr hl
      omega
  refine ⟨hv, ?_, rfl⟩
  simp [chatEndpoint, hv]

/-- Witness for amended C8 at the empty store and the single-space
message. -/
theorem chat_whitespace_amended_witness :
    chatMessageValid " " = true ∧
    chatEndpoint initStore ⟨" ", none⟩ = Except.ok (chat initStore ⟨" ", none⟩) ∧
    (chat initStore ⟨" ", none⟩).2.2 = codebro_brain " " :=
  chat_whitespace_amended initStore " " (by decide) (by decide)

